import Mathlib

/-!
# Verification of the lend12 deal/criteria matching and interest-lifecycle engine

The repository's only source file (`src/frontend/src/App.js`) is a React
client.  The domain core — Matching Engine, Interest Ledger, Deal/Criteria
repositories and the Access Control Gateway — lives server-side and is not
part of the visible sources, so those components are modelled here from the
specification (each such definition is marked `Modelled from the spec:`).
The client-side request builders (`handleExpressInterest`,
`handleCriteriaSubmit`'s regions handling) are embedded directly from
`App.js`.

Numeric conventions: monetary amounts and LTV ratios are rationals (`ℚ`),
credit scores are naturals, entity ids and timestamps are naturals.
-/

/-- Loan types, from the spec's Deal data model (§3) and the `<select>`
options in `App.js` lines 407-410. -/
inductive LoanType
  | residential
  | commercial
  | construction
  | refinance
deriving DecidableEq, Repr

/-- Deal lifecycle states (§4.3): `open → matched → closed`.  Constructor
names are capitalised because `open` is a Lean keyword. -/
inductive DealStatus
  | Open
  | Matched
  | Closed
deriving DecidableEq, Repr

/-- Modelled from the spec: the Deal entity (§3).  The server-side Deal
repository is not in the visible sources. -/
structure Deal where
  id : Nat
  broker_id : Nat
  title : String
  loan_type : LoanType
  amount : ℚ
  region : String
  borrower_credit_score : Nat
  ltv_ratio : ℚ
  property_type : String
  description : String
  status : DealStatus
  created_at : Nat
deriving DecidableEq, Repr

/-- Modelled from the spec: the Criteria entity (§3).  The server-side
Criteria repository is not in the visible sources.  `regions` empty means
"any region". -/
structure Criteria where
  id : Nat
  lender_id : Nat
  loan_types : List LoanType
  min_amount : ℚ
  max_amount : ℚ
  regions : List String
  credit_score_min : Nat
  ltv_max : ℚ
deriving DecidableEq, Repr

/-- Drop leading and trailing whitespace from a character list. -/
def trimChars (cs : List Char) : List Char :=
  ((cs.dropWhile Char.isWhitespace).reverse.dropWhile Char.isWhitespace).reverse

/-- Modelled from the spec: region strings are compared case-insensitively
after trimming (§4.1 filter 3), here computed structurally over the string's
character list. -/
def normRegion (s : String) : String :=
  ⟨(trimChars s.data).map Char.toLower⟩

/-- Modelled from the spec: filter 3 of §4.1 — `criteria.regions is empty OR
deal.region ∈ criteria.regions` (case-insensitive, trimmed comparison). -/
def regionOk (d : Deal) (c : Criteria) : Bool :=
  c.regions.isEmpty || c.regions.any (fun r => normRegion r == normRegion d.region)

/-- Modelled from the spec: the Matching Engine's
`eligible(deal, criteria) -> bool` (§4.1), a pure predicate that is the
conjunction of the five filters; the engine itself is server-side and not in
the visible sources. -/
def eligible (d : Deal) (c : Criteria) : Bool :=
  decide (d.loan_type ∈ c.loan_types)
    && (decide (c.min_amount ≤ d.amount) && decide (d.amount ≤ c.max_amount))
    && regionOk d c
    && decide (c.credit_score_min ≤ d.borrower_credit_score)
    && decide (d.ltv_ratio ≤ c.ltv_max)

/-- Modelled from the spec: the Interest entity (§3).  `interest_type` is one
of the strings `"full"`/`"partial"` as posted by the client; the Interest
Ledger is server-side and not in the visible sources.  `updated_at` is the
field overwritten by an idempotent re-submission (§4.4 step 4). -/
structure Interest where
  id : Nat
  deal_id : Nat
  lender_id : Nat
  interest_type : String
  message : String
  created_at : Nat
  updated_at : Nat
deriving DecidableEq, Repr

/-- Caller roles (§3 Account). -/
inductive Role
  | broker
  | lender
deriving DecidableEq, Repr

/-- Modelled from the spec: the error taxonomy of §7 restricted to the kinds
the core operations of §4.4/§4.2 can raise. -/
inductive DomainError
  | ValidationError
  | Forbidden
  | NotFound
  | Ineligible
  | DealClosed
deriving DecidableEq, Repr

/-- Modelled from the spec: the mutable store owned by the Deal repository
and the Interest Ledger (§2).  The per-lender Criteria row is passed to each
operation already resolved (the Access Control Gateway hands every call the
caller's own current Criteria). -/
structure MarketState where
  deals : List Deal
  interests : List Interest
deriving DecidableEq, Repr

/-- Look up a deal by id. -/
def findDeal (s : MarketState) (did : Nat) : Option Deal :=
  s.deals.find? (fun d => d.id == did)

/-- The status of the deal with id `did`, when present. -/
def dealStatusById (s : MarketState) (did : Nat) : Option DealStatus :=
  (findDeal s did).map (fun d => d.status)

/-- Interest records of the (deal, lender) pair. -/
def pairInterests (s : MarketState) (did lid : Nat) : List Interest :=
  s.interests.filter (fun i => i.deal_id == did && i.lender_id == lid)

/-- Modelled from the spec: §4.4 step 4 — if an active Interest already
exists for (deal_id, lender_id), overwrite `interest_type`/`message`/
`updated_at`; otherwise insert a new record.  `fresh` is the id allocated for
a new record and `now` the current timestamp (both supplied by the caller:
id allocation and clocks are outside the modelled core). -/
def upsertInterest (did lid : Nat) (ty msg : String) (fresh now : Nat) :
    List Interest → List Interest
  | [] => [⟨fresh, did, lid, ty, msg, now, now⟩]
  | i :: rest =>
    if i.deal_id == did && i.lender_id == lid then
      { i with interest_type := ty, message := msg, updated_at := now } :: rest
    else
      i :: upsertInterest did lid ty msg fresh now rest

/-- Modelled from the spec: §4.4 step 5 — transition the target deal from
`open` to `matched`; deals in any other state are left unchanged. -/
def markMatched (did : Nat) (d : Deal) : Deal :=
  if d.id == did && d.status == DealStatus.Open then
    { d with status := DealStatus.Matched }
  else d

/-- Modelled from the spec: the Interest Ledger's
`submitInterest(lender_id, deal_id, interest_type, message)` (§4.4), with the
steps in the spec's order: (1) load the Deal, failing `NotFound` when absent
and `Forbidden` when the caller is not a lender; (2) re-run the Matching
Engine against the lender's current Criteria `crit`, failing `Ineligible`;
(3) fail `DealClosed` when the Deal is closed; (4) upsert the Interest;
(5) transition an `open` Deal to `matched`.  The ledger itself is
server-side and not in the visible sources. -/
def submitInterest (s : MarketState) (role : Role) (lid did : Nat)
    (crit : Criteria) (ty msg : String) (fresh now : Nat) :
    Except DomainError MarketState :=
  match findDeal s did with
  | none => .error .NotFound
  | some d =>
    if role ≠ Role.lender then .error .Forbidden
    else if ¬ eligible d crit then .error .Ineligible
    else if d.status = DealStatus.Closed then .error .DealClosed
    else
      .ok { deals := s.deals.map (markMatched did),
            interests := upsertInterest did lid ty msg fresh now s.interests }

/-- Set the status of the deal with id `did` to `closed`. -/
def markClosed (did : Nat) (d : Deal) : Deal :=
  if d.id == did then { d with status := DealStatus.Closed } else d

/-- Modelled from the spec: the broker-initiated explicit close action
(§4.3); only the owning broker may close, other callers are rejected as
non-owners (§4.2, §7 `Forbidden`). -/
def closeDeal (s : MarketState) (broker : Nat) (did : Nat) :
    Except DomainError MarketState :=
  match findDeal s did with
  | none => .error .NotFound
  | some d =>
    if d.broker_id == broker then
      .ok { s with deals := s.deals.map (markClosed did) }
    else .error .Forbidden

/-- Modelled from the spec: creation-time validation of §3 — `amount > 0`,
`borrower_credit_score ∈ [300, 850]`, `ltv_ratio ∈ (0, 1]`. -/
def validDealInput (amount : ℚ) (score : Nat) (ltv : ℚ) : Bool :=
  decide (0 < amount)
    && (decide (300 ≤ score) && decide (score ≤ 850))
    && (decide (0 < ltv) && decide (ltv ≤ 1))

/-- Modelled from the spec: `POST /deals` (§6) — create a Deal owned by the
calling broker, validated per §3 and stored with initial status `open`
(§4.3); out-of-range input is rejected with `ValidationError` before any
storage mutation (§7).  `fresh` is the allocated id, `now` the creation
timestamp. -/
def createDeal (s : MarketState) (broker : Nat) (fresh : Nat) (title : String)
    (lt : LoanType) (amount : ℚ) (region : String) (score : Nat) (ltv : ℚ)
    (ptype desc : String) (now : Nat) : Except DomainError MarketState :=
  if validDealInput amount score ltv then
    .ok { s with
          deals := s.deals ++
            [⟨fresh, broker, title, lt, amount, region, score, ltv, ptype, desc,
              DealStatus.Open, now⟩] }
  else .error .ValidationError

/-- Modelled from the spec: `GET /deals/{id}` as seen by a lender (§4.2, §6)
— a Deal that is absent or that fails the caller's matching predicate is
masked as `NotFound` to avoid existence leakage. -/
def getDealForLender (s : MarketState) (crit : Criteria) (did : Nat) :
    Except DomainError Deal :=
  match findDeal s did with
  | none => .error .NotFound
  | some d => if eligible d crit then .ok d else .error .NotFound

/-- Feed ordering (§4.1): `created_at` descending, ties broken by `id`. -/
def feedBefore (a b : Deal) : Bool :=
  b.created_at < a.created_at || (a.created_at == b.created_at && a.id ≤ b.id)

/-- Insertion step of the feed's insertion sort. -/
def insertByFeedOrder (a : Deal) : List Deal → List Deal
  | [] => [a]
  | b :: bs => if feedBefore a b then a :: b :: bs else b :: insertByFeedOrder a bs

/-- Insertion sort by the feed order. -/
def sortByFeedOrder : List Deal → List Deal
  | [] => []
  | a :: rest => insertByFeedOrder a (sortByFeedOrder rest)

/-- Modelled from the spec: `GET /lender/deals` (§2, §6) — the Matching
Engine filters the open-deal set against the lender's current Criteria, and
the result is ordered per §4.1. -/
def lenderFeed (s : MarketState) (crit : Criteria) : List Deal :=
  sortByFeedOrder
    (s.deals.filter (fun d => d.status == DealStatus.Open && eligible d crit))

/-!
## Client-side embeddings from `src/frontend/src/App.js`
-/

/-- The request body posted to `POST {API}/lender/interest`, embedded from
`handleExpressInterest` (`App.js` lines 550-563).  `deal_id` is the opaque
deal id the card's button passes through. -/
structure InterestRequest where
  deal_id : String
  interest_type : String
  message : String
deriving DecidableEq, Repr

/-- Embedded from `App.js` lines 552-556: `handleExpressInterest(dealId)`
posts `\x7b deal_id: dealId, interest_type: 'full', message: 'I am
interested in funding this deal.' \x7d`. -/
def handleExpressInterestBody (dealId : String) : InterestRequest :=
  { deal_id := dealId
    interest_type := "full"
    message := "I am interested in funding this deal." }

/-- JavaScript whitespace recognised by `String.prototype.trim` restricted
to the ASCII characters relevant here. -/
def isJsSpace (c : Char) : Bool :=
  c = ' ' || c = '\t' || c = '\n' || c = '\r'

/-- Embedded from `App.js` line 641: JavaScript `r.trim()`, on strings
modelled as character lists. -/
def jsTrim (cs : List Char) : List Char :=
  ((cs.dropWhile isJsSpace).reverse.dropWhile isJsSpace).reverse

/-- Embedded from `App.js` line 641: JavaScript `value.split(',')` on
strings modelled as character lists — `''.split(',')` is `['']`, and each
comma opens a new (possibly empty) group. -/
def jsSplitComma : List Char → List (List Char)
  | [] => [[]]
  | c :: cs =>
    if c = ',' then [] :: jsSplitComma cs
    else
      match jsSplitComma cs with
      | [] => [[c]]
      | h :: t => (c :: h) :: t

/-- Embedded from `App.js` lines 639-642: the `regions` value submitted by
the criteria form is `e.target.value.split(',').map(r => r.trim())` for the
final text-input value. -/
def regionsFromInput (cs : List Char) : List (List Char) :=
  (jsSplitComma cs).map jsTrim

/-!
## Concrete entities for the spec's §8 scenarios and the witnesses
-/

/-- The Deal of Scenarios 1 and 2 (§8): residential, 300000, region "CA",
credit 720, LTV 0.75. -/
def scenarioDeal : Deal :=
  { id := 1
    broker_id := 10
    title := "Scenario deal"
    loan_type := LoanType.residential
    amount := 300000
    region := "CA"
    borrower_credit_score := 720
    ltv_ratio := 3 / 4
    property_type := "SFR"
    description := "scenario"
    status := DealStatus.Open
    created_at := 0 }

/-- The Criteria of Scenario 1 (§8): residential, 200000-400000, regions
{"CA"}, credit min 680, LTV max 0.8. -/
def scenario1Criteria : Criteria :=
  { id := 2
    lender_id := 20
    loan_types := [LoanType.residential]
    min_amount := 200000
    max_amount := 400000
    regions := ["CA"]
    credit_score_min := 680
    ltv_max := 8 / 10 }

/-- The Criteria of Scenario 2 (§8): as Scenario 1 but regions {"NY"}. -/
def scenario2Criteria : Criteria :=
  { scenario1Criteria with regions := ["NY"] }

/-- A deal as in the scenarios but with LTV 1, so every field is a
kernel-computable literal. -/
def exDeal : Deal :=
  { scenarioDeal with ltv_ratio := 1 }

/-- Criteria as in Scenario 1 but with LTV cap 1, kernel-computable. -/
def exCriteria : Criteria :=
  { scenario1Criteria with ltv_max := 1 }

/-- A market holding only `exDeal`, still open, with no interest. -/
def exState : MarketState :=
  { deals := [exDeal], interests := [] }

/-- The interest record produced by the witness submission on `exState`. -/
def exInterest : Interest :=
  { id := 5, deal_id := 1, lender_id := 20, interest_type := "full",
    message := "hi", created_at := 100, updated_at := 100 }

/-- `exState` after the witness submission: the deal is matched and the one
interest record exists. -/
def exState1 : MarketState :=
  { deals := [{ exDeal with status := DealStatus.Matched }],
    interests := [exInterest] }

/-- A closed deal otherwise identical to `exDeal`. -/
def closedDeal : Deal :=
  { exDeal with id := 2, status := DealStatus.Closed }

/-- A market holding only the closed deal. -/
def closedState : MarketState :=
  { deals := [closedDeal], interests := [] }

/-- Criteria that match no deal at all: empty `loan_types`. -/
def ineligibleCriteria : Criteria :=
  { scenario1Criteria with loan_types := [] }

/-!
## Helper lemmas
-/

/-- Changing only a deal's status never changes its eligibility: `eligible`
reads none of the lifecycle fields. -/
theorem eligible_set_status (d : Deal) (c : Criteria) (st : DealStatus) :
    eligible { d with status := st } c = eligible d c := rfl

/-- Unfolding of the region filter to a proposition. -/
theorem regionOk_iff (d : Deal) (c : Criteria) :
    regionOk d c = true ↔
      c.regions = [] ∨ ∃ r ∈ c.regions, normRegion r = normRegion d.region := by
  simp [regionOk, List.isEmpty_iff, List.any_eq_true]

/-- Unfolding of `eligible` to the conjunction of five propositions. -/
theorem eligible_iff (d : Deal) (c : Criteria) :
    eligible d c = true ↔
      d.loan_type ∈ c.loan_types ∧
      (c.min_amount ≤ d.amount ∧ d.amount ≤ c.max_amount) ∧
      (c.regions = [] ∨ ∃ r ∈ c.regions, normRegion r = normRegion d.region) ∧
      c.credit_score_min ≤ d.borrower_credit_score ∧
      d.ltv_ratio ≤ c.ltv_max := by
  simp [eligible, regionOk_iff d c, and_assoc]

theorem markMatched_id (did : Nat) (d : Deal) : (markMatched did d).id = d.id := by
  unfold markMatched; split <;> rfl

theorem markClosed_id (did : Nat) (d : Deal) : (markClosed did d).id = d.id := by
  unfold markClosed; split <;> rfl

theorem eligible_markMatched (did : Nat) (d : Deal) (c : Criteria) :
    eligible (markMatched did d) c = eligible d c := by
  unfold markMatched; split <;> rfl

/-- `find?` by id commutes with mapping any id-preserving function. -/
theorem find?_id_map (f : Deal → Deal) (hf : ∀ d, (f d).id = d.id)
    (l : List Deal) (k : Nat) :
    (l.map f).find? (fun d => d.id == k) = (l.find? (fun d => d.id == k)).map f := by
  rw [List.find?_map]
  have hp : ((fun d => d.id == k) ∘ f) = (fun d => d.id == k) := by
    funext d
    simp [Function.comp, hf]
  rw [hp]

theorem markMatched_idem (did : Nat) (d : Deal) :
    markMatched did (markMatched did d) = markMatched did d := by
  by_cases hs : d.status = DealStatus.Open
  · by_cases hid : d.id = did
    · simp [markMatched, hs, hid]
    · simp [markMatched, hs, hid]
  · simp [markMatched, hs]

theorem map_markMatched_idem (did : Nat) (l : List Deal) :
    (l.map (markMatched did)).map (markMatched did) = l.map (markMatched did) := by
  induction l with
  | nil => rfl
  | cons d rest ih => simp [ih, markMatched_idem]

theorem markMatched_status_ne_closed (did : Nat) (d : Deal)
    (h : d.status ≠ DealStatus.Closed) :
    (markMatched did d).status ≠ DealStatus.Closed := by
  unfold markMatched
  split
  · simp
  · simpa using h

theorem markMatched_status_closed (did : Nat) (d : Deal)
    (h : d.status = DealStatus.Closed) :
    (markMatched did d).status = DealStatus.Closed := by
  unfold markMatched
  split
  · next hc =>
    rw [h] at hc
    simp at hc
  · simpa using h

theorem markClosed_status_closed (did : Nat) (d : Deal)
    (h : d.status = DealStatus.Closed) :
    (markClosed did d).status = DealStatus.Closed := by
  unfold markClosed
  split
  · rfl
  · simpa using h

/-- Re-upserting the identical interest data is a no-op. -/
theorem upsertInterest_idem (did lid : Nat) (ty msg : String) (f₁ f₂ n : Nat)
    (l : List Interest) :
    upsertInterest did lid ty msg f₂ n (upsertInterest did lid ty msg f₁ n l) =
      upsertInterest did lid ty msg f₁ n l := by
  induction l with
  | nil => simp [upsertInterest]
  | cons i rest ih =>
    by_cases h : (i.deal_id == did && i.lender_id == lid) = true
    · simp [upsertInterest, h]
    · simp [upsertInterest, h, ih]

/-- Upserting into a list holding at most one record for the pair leaves
exactly one record for the pair. -/
theorem length_filter_upsertInterest (did lid : Nat) (ty msg : String)
    (fresh now : Nat) (l : List Interest)
    (h : (l.filter (fun i => i.deal_id == did && i.lender_id == lid)).length ≤ 1) :
    ((upsertInterest did lid ty msg fresh now l).filter
        (fun i => i.deal_id == did && i.lender_id == lid)).length = 1 := by
  induction l with
  | nil => simp [upsertInterest]
  | cons i rest ih =>
    by_cases hm : (i.deal_id == did && i.lender_id == lid) = true
    · have hrest :
          (rest.filter (fun i => i.deal_id == did && i.lender_id == lid)).length = 0 := by
        simp [List.filter_cons, hm] at h
        simpa using h
      simp [upsertInterest, hm, List.filter_cons, hrest]
    · have hm' : (i.deal_id == did && i.lender_id == lid) = false := by
        simpa using hm
      simp only [List.filter_cons, hm', Bool.false_eq_true, if_false] at h
      have hr := ih h
      simp [upsertInterest, hm', List.filter_cons, hr]

/-- Membership in the feed's insertion step. -/
theorem mem_insertByFeedOrder (a x : Deal) (l : List Deal) :
    x ∈ insertByFeedOrder a l ↔ x = a ∨ x ∈ l := by
  induction l with
  | nil => simp [insertByFeedOrder]
  | cons b bs ih =>
    by_cases h : feedBefore a b = true
    · simp [insertByFeedOrder, h]
    · simp [insertByFeedOrder, h, ih]
      tauto

/-- Sorting the feed neither adds nor removes deals. -/
theorem mem_sortByFeedOrder (x : Deal) (l : List Deal) :
    x ∈ sortByFeedOrder l ↔ x ∈ l := by
  induction l with
  | nil => simp [sortByFeedOrder]
  | cons a rest ih =>
    simp [sortByFeedOrder, mem_insertByFeedOrder, ih]

/-- JavaScript `split(',')` never returns an empty array. -/
theorem length_jsSplitComma_pos (cs : List Char) : 0 < (jsSplitComma cs).length := by
  induction cs with
  | nil => simp [jsSplitComma]
  | cons c rest ih =>
    by_cases h : c = ','
    · simp [jsSplitComma, h]
    · simp only [jsSplitComma, h, if_false]
      cases hs : jsSplitComma rest <;> simp

/-- Success shape of `submitInterest`: the call returns `ok` exactly when the
deal exists, the caller is a lender, the deal is eligible for the caller's
criteria and is not closed; the new state is then the §4.4 upsert plus the
`open → matched` transition. -/
theorem submitInterest_eq_ok (s : MarketState) (role : Role) (lid did : Nat)
    (crit : Criteria) (ty msg : String) (fresh now : Nat) (s' : MarketState) :
    submitInterest s role lid did crit ty msg fresh now = .ok s' ↔
      ∃ d, findDeal s did = some d ∧ role = Role.lender ∧
        eligible d crit = true ∧ d.status ≠ DealStatus.Closed ∧
        s' = { deals := s.deals.map (markMatched did),
               interests := upsertInterest did lid ty msg fresh now s.interests } := by
  unfold submitInterest
  cases hfd : findDeal s did with
  | none => simp
  | some d =>
    dsimp only
    by_cases hrole : role = Role.lender
    · by_cases hel : eligible d crit = true
      · by_cases hcl : d.status = DealStatus.Closed
        · rw [if_neg (by simp [hrole]), if_neg (by simp [hel]), if_pos hcl]
          simp [hcl]
        · rw [if_neg (by simp [hrole]), if_neg (by simp [hel]), if_neg hcl]
          simp [hrole, hel, hcl]
          exact eq_comm
      · have hel' : eligible d crit = false := by simpa using hel
        rw [if_neg (by simp [hrole]), if_pos (by simp [hel'])]
        simp [hel']
    · simp [hrole]

/-!
## Claim theorems
-/

/-- C1: for every Deal `d` and Criteria `c`, `eligible d c` returns true if
and only if all five §4.1 filters hold simultaneously — loan type opted in,
amount inside [min_amount, max_amount], region empty-or-member (trimmed,
case-insensitive), credit score at least the minimum, and LTV at most the
cap.  `eligible` is a plain Lean function of its two arguments, hence pure
and side-effect-free. -/
theorem c1_eligible_iff_five_filters (d : Deal) (c : Criteria) :
    eligible d c = true ↔
      d.loan_type ∈ c.loan_types ∧
      (c.min_amount ≤ d.amount ∧ d.amount ≤ c.max_amount) ∧
      (c.regions = [] ∨ ∃ r ∈ c.regions, normRegion r = normRegion d.region) ∧
      c.credit_score_min ≤ d.borrower_credit_score ∧
      d.ltv_ratio ≤ c.ltv_max :=
  eligible_iff d c

/-- C1 witness: the five filters evaluated on a concrete deal/criteria pair
through the theorem's right-to-left direction. -/
theorem c1_witness : eligible exDeal exCriteria = true :=
  (c1_eligible_iff_five_filters exDeal exCriteria).mpr (by decide)

/-- C7: the loan-type filter fails closed — with an empty
`criteria.loan_types` no deal is ever eligible. -/
theorem c7_empty_loan_types_fails_closed (d : Deal) (c : Criteria)
    (h : c.loan_types = []) : eligible d c = false := by
  simp [eligible, h]

/-- C7 witness: concrete criteria with empty loan types reject the concrete
deal. -/
theorem c7_witness : eligible exDeal ineligibleCriteria = false :=
  c7_empty_loan_types_fails_closed exDeal ineligibleCriteria rfl

/-- C8: the region filter passes exactly when `criteria.regions` is empty or
the deal's region is a member under case-insensitive comparison of trimmed
strings; on the Scenario-2 instance (deal region "CA", criteria regions
{"NY"}) `eligible` is false, while the same instance with the region filter
made trivial (empty regions) is eligible, so all other filters pass. -/
theorem c8_region_filter (d : Deal) (c : Criteria) :
    (regionOk d c = true ↔
        c.regions = [] ∨ ∃ r ∈ c.regions, normRegion r = normRegion d.region) ∧
      eligible scenarioDeal scenario2Criteria = false ∧
      eligible scenarioDeal { scenario2Criteria with regions := [] } = true := by
  refine ⟨regionOk_iff d c, ?_, ?_⟩
  · cases he : eligible scenarioDeal scenario2Criteria
    · rfl
    · exact absurd ((eligible_iff _ _).mp he).2.2.1 (by decide)
  · refine (eligible_iff _ _).mpr ⟨by decide, ⟨?_, ?_⟩, by left; rfl, by decide, ?_⟩ <;>
      norm_num [scenarioDeal, scenario1Criteria, scenario2Criteria]

/-- C8 witness: the region-filter characterization instantiated at the
Scenario-2 deal and criteria. -/
theorem c8_witness :
    regionOk scenarioDeal scenario2Criteria = true ↔
      scenario2Criteria.regions = [] ∨
        ∃ r ∈ scenario2Criteria.regions,
          normRegion r = normRegion scenarioDeal.region :=
  (c8_region_filter scenarioDeal scenario2Criteria).1

/-- C9: `handleExpressInterest` posts exactly the constant body — interest
type `"full"` and the fixed message — plus the deal id, for every deal id;
in particular the interest type `"partial"` is never produced. -/
theorem c9_express_interest_constant_body (dealId : String) :
    handleExpressInterestBody dealId =
      ({ deal_id := dealId
         interest_type := "full"
         message := "I am interested in funding this deal." } : InterestRequest) ∧
      (handleExpressInterestBody dealId).interest_type ≠ "partial" := by
  refine ⟨rfl, ?_⟩
  show ("full" : String) ≠ "partial"
  decide

/-- C9 witness: the constant body at a concrete deal id. -/
theorem c9_witness :
    handleExpressInterestBody "deal-1" =
      ({ deal_id := "deal-1"
         interest_type := "full"
         message := "I am interested in funding this deal." } : InterestRequest) ∧
      (handleExpressInterestBody "deal-1").interest_type ≠ "partial" :=
  c9_express_interest_constant_body "deal-1"

/-- C10: the regions value submitted by the criteria form,
`input.split(',').map(trim)`, is a non-empty list for every input string —
the spec's "empty set = any region" branch is unreachable from this client —
and a whitespace-only or trailing-comma input yields empty-string elements
rather than the empty list. -/
theorem c10_regions_never_empty (cs : List Char) :
    0 < (regionsFromInput cs).length ∧
      regionsFromInput (String.toList " ") = [[]] ∧
      regionsFromInput (String.toList "NY,") = [['N', 'Y'], []] := by
  refine ⟨?_, by decide, by decide⟩
  rw [regionsFromInput, List.length_map]
  exact length_jsSplitComma_pos cs

/-- Unfolding of the creation-time validation to propositions. -/
theorem validDealInput_iff (amount : ℚ) (score : Nat) (ltv : ℚ) :
    validDealInput amount score ltv = true ↔
      0 < amount ∧ (300 ≤ score ∧ score ≤ 850) ∧ (0 < ltv ∧ ltv ≤ 1) := by
  simp [validDealInput, and_assoc]

/-- C6: deal creation validates amount, credit score and LTV before any
storage mutation — a Deal is created exactly when `amount > 0`,
`borrower_credit_score ∈ [300, 850]` and `ltv_ratio ∈ (0, 1]`, and otherwise
the call returns `ValidationError` and no state (hence no Deal) is
produced; nothing is clamped. -/
theorem c6_create_deal_validation (s : MarketState) (broker fresh : Nat)
    (title : String) (lt : LoanType) (amount : ℚ) (region : String)
    (score : Nat) (ltv : ℚ) (ptype desc : String) (now : Nat) :
    ((∃ s', createDeal s broker fresh title lt amount region score ltv
        ptype desc now = .ok s') ↔
      0 < amount ∧ (300 ≤ score ∧ score ≤ 850) ∧ (0 < ltv ∧ ltv ≤ 1)) ∧
    (¬(0 < amount ∧ (300 ≤ score ∧ score ≤ 850) ∧ (0 < ltv ∧ ltv ≤ 1)) →
      createDeal s broker fresh title lt amount region score ltv
        ptype desc now = .error DomainError.ValidationError) := by
  by_cases hv : validDealInput amount score ltv = true
  · have hp := (validDealInput_iff amount score ltv).mp hv
    constructor
    · simp [createDeal, hv, hp]
    · intro hnp
      exact absurd hp hnp
  · have hp : ¬(0 < amount ∧ (300 ≤ score ∧ score ≤ 850) ∧ (0 < ltv ∧ ltv ≤ 1)) :=
      fun hc => hv ((validDealInput_iff amount score ltv).mpr hc)
    have hv' : validDealInput amount score ltv = false := by simpa using hv
    constructor
    · simp [createDeal, hv', hp]
    · intro _
      simp [createDeal, hv']

/-- C6 witness: an out-of-range credit score (200) is rejected with
`ValidationError` at a concrete input. -/
theorem c6_witness :
    createDeal exState 10 7 "t" LoanType.residential 100 "CA" 200 1 "p" "d" 0 =
      .error DomainError.ValidationError :=
  (c6_create_deal_validation exState 10 7 "t" LoanType.residential 100 "CA"
      200 1 "p" "d" 0).2 (by decide)

/-- C3: for a lender with current criteria `crit`, a direct fetch of an id
that does not exist and of an id whose deal fails the matching predicate
both return the literal response `.error NotFound` — the two cases are
indistinguishable, leaking no existence information — and an ineligible
deal is likewise absent from the lender's feed. -/
theorem c3_direct_fetch_masked (s : MarketState) (crit : Criteria) (k : Nat) :
    (findDeal s k = none →
      getDealForLender s crit k = .error DomainError.NotFound) ∧
    (∀ d, findDeal s k = some d → eligible d crit = false →
      getDealForLender s crit k = .error DomainError.NotFound ∧
        d ∉ lenderFeed s crit) := by
  constructor
  · intro h
    simp [getDealForLender, h]
  · intro d hfd hel
    constructor
    · simp [getDealForLender, hfd, hel]
    · intro hmem
      rw [lenderFeed, mem_sortByFeedOrder] at hmem
      have hp := (List.mem_filter.mp hmem).2
      simp [hel] at hp

/-- C3 witness: in the concrete market, fetching the missing id 99 and the
ineligible deal id 1 both yield `NotFound`, and the deal is absent from the
feed. -/
theorem c3_witness :
    getDealForLender exState ineligibleCriteria 99 = .error DomainError.NotFound ∧
      getDealForLender exState ineligibleCriteria 1 = .error DomainError.NotFound ∧
      exDeal ∉ lenderFeed exState ineligibleCriteria :=
  ⟨(c3_direct_fetch_masked exState ineligibleCriteria 99).1 rfl,
   ((c3_direct_fetch_masked exState ineligibleCriteria 1).2 exDeal rfl (by decide)).1,
   ((c3_direct_fetch_masked exState ineligibleCriteria 1).2 exDeal rfl (by decide)).2⟩

/-- C5: every Deal is created in state `open` (any deal present after
`createDeal` succeeds is either pre-existing or open), the first successful
Interest on an open Deal transitions it to `matched`, and a further
successful Interest on a `matched` Deal leaves it `matched` — the chain
`open → matched` fires exactly once on account of interest accumulation. -/
theorem c5_lifecycle_chain :
    (∀ s broker fresh title lt amount region score ltv ptype desc now s',
        createDeal s broker fresh title lt amount region score ltv
          ptype desc now = .ok s' →
        ∀ d ∈ s'.deals, d ∈ s.deals ∨ d.status = DealStatus.Open) ∧
    (∀ s role lid did crit ty msg fresh now s' d,
        submitInterest s role lid did crit ty msg fresh now = .ok s' →
        findDeal s did = some d →
        (d.status = DealStatus.Open →
            dealStatusById s' did = some DealStatus.Matched) ∧
          (d.status = DealStatus.Matched →
            dealStatusById s' did = some DealStatus.Matched)) := by
  constructor
  · intro s broker fresh title lt amount region score ltv ptype desc now s' hok d hd
    unfold createDeal at hok
    by_cases hv : validDealInput amount score ltv = true
    · rw [if_pos hv] at hok
      obtain rfl : ({ s with
          deals := s.deals ++
            [⟨fresh, broker, title, lt, amount, region, score, ltv, ptype, desc,
              DealStatus.Open, now⟩] } : MarketState) = s' := by
        cases hok
        rfl
      rcases List.mem_append.mp hd with hl | hr
      · exact Or.inl hl
      · right
        simp at hr
        rw [hr]
    · rw [if_neg hv] at hok
      cases hok
  · intro s role lid did crit ty msg fresh now s' d hok hfd
    obtain ⟨d₁, hfd₁, -, -, -, hs'⟩ :=
      (submitInterest_eq_ok s role lid did crit ty msg fresh now s').mp hok
    rw [hfd] at hfd₁
    obtain rfl : d = d₁ := by
      cases hfd₁
      rfl
    subst hs'
    have hfd' : s.deals.find? (fun d => d.id == did) = some d := hfd
    have hid := List.find?_some hfd'
    have hfind :
        findDeal { deals := s.deals.map (markMatched did),
                   interests := upsertInterest did lid ty msg fresh now s.interests }
            did = some (markMatched did d) := by
      show (s.deals.map (markMatched did)).find? (fun d => d.id == did) = _
      rw [find?_id_map _ (markMatched_id did)]
      have : s.deals.find? (fun d => d.id == did) = some d := hfd
      rw [this]
      rfl
    constructor <;> intro hst
    · rw [dealStatusById, hfind]
      simp [markMatched, hid, hst]
    · rw [dealStatusById, hfind]
      simp [markMatched, hid, hst]

/-- C5 witness: submitting interest on the concrete open deal transitions it
to `matched`. -/
theorem c5_witness : dealStatusById exState1 1 = some DealStatus.Matched :=
  (c5_lifecycle_chain.2 exState Role.lender 20 1 exCriteria "full" "hi" 5 100
      exState1 exDeal rfl rfl).1 rfl

/-- C4 counterexample: in a concrete market the deal with id 2 is closed,
yet a submission from an ineligible caller fails with `Ineligible`, not
`DealClosed` — the §4.4 eligibility guard (step 2) runs before the closed
check (step 3), so the error is not `DealClosed` "regardless of the
caller's eligibility". -/
theorem c4_counterexample :
    dealStatusById closedState 2 = some DealStatus.Closed ∧
      submitInterest closedState Role.lender 20 2 ineligibleCriteria
          "full" "m" 9 9 = .error DomainError.Ineligible ∧
      (DomainError.Ineligible ≠ DomainError.DealClosed) :=
  ⟨rfl, rfl, by decide⟩

/-- C4 (amended): a closed Deal accepts no interest submission — every
`submitInterest` targeting it fails, with `DealClosed` whenever the caller
is an eligible lender (an ineligible caller is instead rejected by the
earlier `Ineligible` guard of §4.4) — and `closed` is terminal: neither a
successful `submitInterest`, nor `closeDeal`, nor `createDeal` ever moves
any Deal out of the closed state. -/
theorem c4_closed_rejects_and_terminal :
    (∀ s role lid did crit ty msg fresh now d,
        findDeal s did = some d → d.status = DealStatus.Closed →
        (∀ s', submitInterest s role lid did crit ty msg fresh now ≠ .ok s') ∧
          (role = Role.lender → eligible d crit = true →
            submitInterest s role lid did crit ty msg fresh now =
              .error DomainError.DealClosed)) ∧
    (∀ s role lid did crit ty msg fresh now s' k,
        submitInterest s role lid did crit ty msg fresh now = .ok s' →
        dealStatusById s k = some DealStatus.Closed →
        dealStatusById s' k = some DealStatus.Closed) ∧
    (∀ s broker did s' k,
        closeDeal s broker did = .ok s' →
        dealStatusById s k = some DealStatus.Closed →
        dealStatusById s' k = some DealStatus.Closed) ∧
    (∀ s broker fresh title lt amount region score ltv ptype desc now s' k,
        createDeal s broker fresh title lt amount region score ltv
          ptype desc now = .ok s' →
        dealStatusById s k = some DealStatus.Closed →
        dealStatusById s' k = some DealStatus.Closed) := by
  refine ⟨?_, ?_, ?_, ?_⟩
  · intro s role lid did crit ty msg fresh now d hfd hcl
    constructor
    · intro s' hok
      obtain ⟨d₁, hfd₁, -, -, hncl, -⟩ :=
        (submitInterest_eq_ok s role lid did crit ty msg fresh now s').mp hok
      rw [hfd] at hfd₁
      obtain rfl : d = d₁ := by
        cases hfd₁
        rfl
      exact hncl hcl
    · intro hrole hel
      unfold submitInterest
      rw [hfd]
      dsimp only
      rw [if_neg (by simp [hrole]), if_neg (by simp [hel]), if_pos hcl]
  · intro s role lid did crit ty msg fresh now s' k hok hclk
    obtain ⟨d, hfd, -, -, -, hs'⟩ :=
      (submitInterest_eq_ok s role lid did crit ty msg fresh now s').mp hok
    subst hs'
    rw [dealStatusById, findDeal] at hclk ⊢
    show ((s.deals.map (markMatched did)).find?
        (fun d => d.id == k)).map (fun d => d.status) = some DealStatus.Closed
    rw [find?_id_map _ (markMatched_id did)]
    cases hf : s.deals.find? (fun d => d.id == k) with
    | none =>
      rw [hf] at hclk
      cases hclk
    | some dk =>
      rw [hf] at hclk
      simp only [Option.map_some'] at hclk ⊢
      have hdk : dk.status = DealStatus.Closed := Option.some.inj hclk
      rw [markMatched_status_closed did dk hdk]
  · intro s broker did s' k hok hclk
    unfold closeDeal at hok
    cases hfd : findDeal s did with
    | none =>
      rw [hfd] at hok
      cases hok
    | some d =>
      rw [hfd] at hok
      dsimp only at hok
      by_cases hb : (d.broker_id == broker) = true
      · rw [if_pos hb] at hok
        obtain rfl : ({ s with deals := s.deals.map (markClosed did) } :
            MarketState) = s' := by
          cases hok
          rfl
        rw [dealStatusById, findDeal] at hclk ⊢
        show ((s.deals.map (markClosed did)).find?
            (fun d => d.id == k)).map (fun d => d.status) = some DealStatus.Closed
        rw [find?_id_map _ (markClosed_id did)]
        cases hf : s.deals.find? (fun d => d.id == k) with
        | none =>
          rw [hf] at hclk
          cases hclk
        | some dk =>
          rw [hf] at hclk
          simp only [Option.map_some'] at hclk ⊢
          have hdk : dk.status = DealStatus.Closed := Option.some.inj hclk
          rw [markClosed_status_closed did dk hdk]
      · rw [if_neg (by simpa using hb)] at hok
        cases hok
  · intro s broker fresh title lt amount region score ltv ptype desc now s' k hok hclk
    unfold createDeal at hok
    by_cases hv : validDealInput amount score ltv = true
    · rw [if_pos hv] at hok
      obtain rfl : ({ s with
          deals := s.deals ++
            [⟨fresh, broker, title, lt, amount, region, score, ltv, ptype, desc,
              DealStatus.Open, now⟩] } : MarketState) = s' := by
        cases hok
        rfl
      rw [dealStatusById, findDeal] at hclk ⊢
      cases hf : s.deals.find? (fun d => d.id == k) with
      | none =>
        rw [hf] at hclk
        cases hclk
      | some dk =>
        show ((s.deals ++ _).find? (fun d => d.id == k)).map
            (fun d => d.status) = some DealStatus.Closed
        rw [List.find?_append, hf]
        rw [hf] at hclk
        exact hclk
    · rw [if_neg hv] at hok
      cases hok

/-- C4 witness: an eligible lender submitting on the concrete closed deal is
rejected with `DealClosed`. -/
theorem c4_witness :
    submitInterest closedState Role.lender 20 2 exCriteria "full" "m" 9 9 =
      .error DomainError.DealClosed :=
  (c4_closed_rejects_and_terminal.1 closedState Role.lender 20 2 exCriteria
      "full" "m" 9 9 closedDeal rfl rfl).2 rfl (by decide)

/-- C2: `submitInterest` is idempotent — starting from a state respecting
the at-most-one-active-Interest invariant for the pair, once a submission
succeeds, repeating it with identical arguments returns the very same state
(so the Deal status is unchanged), and the state holds exactly one Interest
record for the (deal_id, lender_id) pair: the repeat upserts the existing
record instead of inserting a duplicate. -/
theorem c2_submit_interest_idempotent (s : MarketState) (lid did : Nat)
    (crit : Criteria) (ty msg : String) (fresh now : Nat) (s₁ : MarketState)
    (hinv : (pairInterests s did lid).length ≤ 1)
    (h₁ : submitInterest s Role.lender lid did crit ty msg fresh now = .ok s₁) :
    submitInterest s₁ Role.lender lid did crit ty msg fresh now = .ok s₁ ∧
      (pairInterests s₁ did lid).length = 1 := by
  obtain ⟨d, hfd, -, hel, hncl, hs₁⟩ :=
    (submitInterest_eq_ok s Role.lender lid did crit ty msg fresh now s₁).mp h₁
  subst hs₁
  constructor
  · rw [submitInterest_eq_ok]
    refine ⟨markMatched did d, ?_, rfl, ?_, ?_, ?_⟩
    · show ((s.deals.map (markMatched did)).find?
        (fun d => d.id == did)) = some (markMatched did d)
      rw [find?_id_map _ (markMatched_id did)]
      have hfd' : s.deals.find? (fun d => d.id == did) = some d := hfd
      rw [hfd']
      rfl
    · rw [eligible_markMatched]
      exact hel
    · exact markMatched_status_ne_closed did d hncl
    · show ({ deals := s.deals.map (markMatched did),
              interests := upsertInterest did lid ty msg fresh now s.interests } :
          MarketState) =
        { deals := (s.deals.map (markMatched did)).map (markMatched did),
          interests := upsertInterest did lid ty msg fresh now
            (upsertInterest did lid ty msg fresh now s.interests) }
      rw [map_markMatched_idem, upsertInterest_idem]
  · show ((upsertInterest did lid ty msg fresh now s.interests).filter
        (fun i => i.deal_id == did && i.lender_id == lid)).length = 1
    exact length_filter_upsertInterest did lid ty msg fresh now s.interests hinv

/-- C2 witness: on the concrete market the first submission succeeds, the
repeat submission with identical arguments returns the same state, and
exactly one Interest record exists for the pair. -/
theorem c2_witness :
    submitInterest exState1 Role.lender 20 1 exCriteria "full" "hi" 5 100 =
        .ok exState1 ∧
      (pairInterests exState1 1 20).length = 1 :=
  c2_submit_interest_idempotent exState 20 1 exCriteria "full" "hi" 5 100
    exState1 (by decide) rfl
